import Mathlib

/-!
Verification of the synthetic-data generator and the seasonal
aggregation/filter layer of the black-carbon analysis visualizer
(`src/Misc/interface/src/App.tsx`, component `BCAnalysisVisualizer`).

Real numbers of the source are embedded as exact rationals (`ℚ`); the
JavaScript value `NaN`, which arises only from `0 / 0` in the mean
computation, is modelled by `Option ℚ` with `none` standing for `NaN`.
Dates are embedded as epoch days (`ℕ`, days since 1970-01-01) and epoch
milliseconds (`ℤ`); `Math.random()` draws are supplied explicitly as a
stream `u : ℕ → ℚ` of values in `[0, 1)`.
-/

namespace BCAnalysis

/-- A measurement record (`interface DataPoint`, App.tsx lines 15–24).
`date` is the epoch day of the record's calendar date; `timestamp` is the
corresponding epoch-millisecond value stored by `date.getTime()`. -/
structure DataPoint where
  date : ℕ
  timestamp : ℤ
  month : ℕ
  season : String
  redBCc : ℚ
  ecFTIR : ℚ
  fabs : ℚ
  mac : ℚ
deriving Repr, DecidableEq

/-- The list of Ethiopian seasons (`seasons`, App.tsx lines 42 and 372). -/
def seasons : List String :=
  ["Dry Season", "Belg Rainy Season", "Kiremt Rainy Season"]

/-- The season → months table (`seasonMonths`, App.tsx lines 43–47), as an
association list in the object's insertion order, which is the order
`Object.entries` iterates it. -/
def seasonMonthsTable : List (String × List ℕ) :=
  [("Dry Season", [10, 11, 12, 1, 2]),
   ("Belg Rainy Season", [3, 4, 5]),
   ("Kiremt Rainy Season", [6, 7, 8, 9])]

/-- The season-assignment loop (App.tsx lines 57–64): `season` starts as the
empty string and becomes the first table entry whose month list contains
`month`. -/
def assignSeason (month : ℕ) : String :=
  match seasonMonthsTable.find? (fun e => e.2.contains month) with
  | some e => e.1
  | none => ""

/-- Epoch day of `new Date('2022-01-01')` (App.tsx line 39): days from
1970-01-01 to 2022-01-01. -/
def startEpochDay : ℕ := 18993

/-- Calendar month (1–12) of an epoch day, via standard civil-calendar
arithmetic; embeds `date.getMonth() + 1` (App.tsx line 55). All quantities
stay in `ℕ`: every date the generator produces is after 1970. -/
def monthOfEpochDay (d : ℕ) : ℕ :=
  let z := d + 719468
  let doe := z % 146097
  let yoe := (doe - doe / 1460 + doe / 36524 - doe / 146096) / 365
  let doy := doe - (365 * yoe + yoe / 4 - yoe / 100)
  let mp := (5 * doy + 2) / 153
  if mp < 10 then mp + 3 else mp - 9

/-- One iteration of the generation loop (App.tsx lines 51–92), producing the
record for index `i`. `u1, u2, u3, u4` are the four `Math.random()` draws in
the order the source consumes them: `baseValue`, `redBCc` noise, `ecFTIR`
noise, `fabs` noise. The date is `startDate + i * 3` days (line 53). -/
def mkRecord (i : ℕ) (u1 u2 u3 u4 : ℚ) : DataPoint :=
  let day : ℕ := startEpochDay + i * 3
  let month : ℕ := monthOfEpochDay day
  let season : String := assignSeason month
  let baseValue : ℚ := 2 + u1 * 8
  let seasonalFactor : ℚ :=
    if season = "Dry Season" then 1.2
    else if season = "Belg Rainy Season" then 0.8
    else 1.0
  let redBCc : ℚ := baseValue * seasonalFactor * (1 + (u2 - 0.5) * 0.3)
  let ecFTIR : ℚ := baseValue * 0.9 * (1 + (u3 - 0.5) * 0.4)
  let fabs : ℚ := baseValue * 5 * (1 + (u4 - 0.5) * 0.5)
  let mac : ℚ := fabs / ecFTIR
  { date := day
    timestamp := (day : ℤ) * 86400000
    month := month
    season := season
    redBCc := redBCc
    ecFTIR := ecFTIR
    fabs := fabs
    mac := mac }

/-- `generateSampleData` (App.tsx lines 34–95). The source fixes
`sampleSize = 103`; following the spec contract the size is a parameter, and
the `for (let i = 0; i < sampleSize; i++)` loop runs `max sampleSize 0`
times. Record `i` consumes the draws `u (4*i) … u (4*i+3)`. -/
def generateSampleData (sampleSize : ℤ) (u : ℕ → ℚ) : List DataPoint :=
  (List.range sampleSize.toNat).map
    (fun i => mkRecord i (u (4 * i)) (u (4 * i + 1)) (u (4 * i + 2)) (u (4 * i + 3)))

/-- The season filter (`filteredData`, App.tsx lines 107–109):
`data.filter(item => seasonFilter === 'all' || item.season === seasonFilter)`. -/
def filteredData (data : List DataPoint) (seasonFilter : String) : List DataPoint :=
  data.filter (fun item => seasonFilter == "all" || item.season == seasonFilter)

/-- The MAC projection (`macData`, App.tsx lines 280–284), keeping the two
fields the statistics use: `(season, mac)`. -/
def macData (l : List DataPoint) : List (String × ℚ) :=
  l.map (fun item => (item.season, item.mac))

/-- The overall mean (`avgMAC`, App.tsx lines 287–288):
`macValues.reduce((sum, val) => sum + val, 0) / macValues.length`, computed
unconditionally. On the empty list JavaScript evaluates `0 / 0 = NaN`;
`none` models that `NaN`. A nonzero-length division agrees with the exact
rational value. -/
def avgMAC (macValues : List ℚ) : Option ℚ :=
  if macValues.length = 0 then none
  else some (macValues.sum / (macValues.length : ℚ))

/-- A season's MAC values (`seasonData`, App.tsx line 293):
`macData.filter(item => item.season === season).map(item => item.mac)`. -/
def seasonData (md : List (String × ℚ)) (season : String) : List ℚ :=
  (md.filter (fun item => item.1 == season)).map Prod.snd

/-- The per-season statistics (`seasonalMACs`, App.tsx lines 291–301): for
each season, in the order of `seasons`, an entry `(season, mean, count)` is
produced only when `seasonData.length > 0`. The source formats the mean with
`toFixed(2)` for display; the entry here carries the exact mean. -/
def seasonalMACs (md : List (String × ℚ)) : List (String × ℚ × ℕ) :=
  seasons.filterMap (fun season =>
    if 0 < (seasonData md season).length then
      some (season,
        (seasonData md season).sum / ((seasonData md season).length : ℚ),
        (seasonData md season).length)
    else none)

/-- The time-series sort (`sortedData`, App.tsx line 213):
`[...filteredData].sort((a, b) => a.timestamp - b.timestamp)`.
`Array.prototype.sort` is a stable sort ordering by the sign of the
comparator, here ascending `timestamp`; `List.mergeSort` is the stable
ascending sort of the embedding. -/
def sortByTimestamp (l : List DataPoint) : List DataPoint :=
  l.mergeSort (fun a b => a.timestamp ≤ b.timestamp)

/-- The summary panel's seasonal distribution (App.tsx lines 420–427): for
each season, `count = data.filter(item => item.season === season).length`
and `percentage = count / data.length * 100`. The panel closes over the
unfiltered `data`; the current filter selection is taken as an argument here
to record that the output never depends on it. -/
def distribution (data : List DataPoint) (_seasonFilter : String) :
    List (String × ℕ × ℚ) :=
  seasons.map (fun season =>
    let count := (data.filter (fun item => item.season == season)).length
    (season, count, (count : ℚ) / (data.length : ℚ) * 100))

/-- A concrete record used to instantiate theorems: a Dry Season record with
`mac = 7`. -/
def sampleDry : DataPoint :=
  { date := 0, timestamp := 0, month := 1, season := "Dry Season"
    redBCc := 1, ecFTIR := 1, fabs := 7, mac := 7 }

/-- C8: for every `sampleSize ≤ 0` the generation loop
`for (let i = 0; i < sampleSize; i++)` runs zero times, so the generator
returns the empty sequence (no error is raised). -/
theorem generateSampleData_nonpos_eq_nil (sampleSize : ℤ) (u : ℕ → ℚ)
    (h : sampleSize ≤ 0) : generateSampleData sampleSize u = [] := by
  simp [generateSampleData, Int.toNat_of_nonpos h]

theorem generateSampleData_nonpos_eq_nil_witness :
    generateSampleData (-3) (fun _ => 0) = [] :=
  generateSampleData_nonpos_eq_nil (-3) (fun _ => 0) (by norm_num)

/-- C1 (code evidence): filtering a dataset to a season with zero matching
records yields the empty subsequence, and the overall-mean computation of
`renderMACAnalysis` (App.tsx line 288) is still evaluated: it produces
`0 / 0 = NaN` (modelled `none`), which the panel then displays via
`avgMAC.toFixed(2)`. The mean computation is not skipped and no neutral
placeholder is substituted. -/
theorem avgMAC_NaN_on_empty_filter :
    filteredData [sampleDry] "Belg Rainy Season" = [] ∧
    avgMAC ((macData (filteredData [sampleDry] "Belg Rainy Season")).map Prod.snd)
      = none := by
  constructor <;> rfl

/-- C3: every month 1–12 is contained in exactly one entry of the
season→months table, and the season the assignment loop picks for it is one
of the three configured seasons (hence non-empty); moreover every one of the
103 generated records has a month in 1–12, so every generated record is
assigned a non-empty season. -/
theorem seasonMonths_partition (m : ℕ) (h1 : 1 ≤ m) (h2 : m ≤ 12) :
    ((seasonMonthsTable.filter (fun e => e.2.contains m)).length = 1 ∧
      assignSeason m ∈ seasons) ∧
    ∀ i < 103, 1 ≤ monthOfEpochDay (startEpochDay + i * 3) ∧
      monthOfEpochDay (startEpochDay + i * 3) ≤ 12 ∧
      assignSeason (monthOfEpochDay (startEpochDay + i * 3)) ≠ "" := by
  constructor
  · interval_cases m <;> exact ⟨by decide, by decide⟩
  · decide

theorem seasonMonths_partition_witness :
    ((seasonMonthsTable.filter (fun e => e.2.contains 7)).length = 1 ∧
      assignSeason 7 ∈ seasons) ∧
    ∀ i < 103, 1 ≤ monthOfEpochDay (startEpochDay + i * 3) ∧
      monthOfEpochDay (startEpochDay + i * 3) ≤ 12 ∧
      assignSeason (monthOfEpochDay (startEpochDay + i * 3)) ≠ "" :=
  seasonMonths_partition 7 (by decide) (by decide)

/-- C4: the season filter is the identity for the `"all"` selection, and for
each of the three seasons it is exactly the order-preserving subsequence of
records whose `season` equals the selected value. -/
theorem filteredData_all_and_season (records : List DataPoint) :
    filteredData records "all" = records ∧
    ∀ S ∈ seasons,
      filteredData records S = records.filter (fun r => r.season == S) := by
  constructor
  · simp [filteredData]
  · intro S hS
    have hSne : (S == "all") = false := by
      fin_cases hS <;> decide
    simp [filteredData, hSne]

theorem filteredData_all_and_season_witness :
    filteredData [sampleDry] "all" = [sampleDry] ∧
    filteredData [sampleDry] "Dry Season"
      = List.filter (fun r => r.season == "Dry Season") [sampleDry] :=
  ⟨(filteredData_all_and_season [sampleDry]).1,
   (filteredData_all_and_season [sampleDry]).2 "Dry Season" (by decide)⟩

/-- The `ecFTIR` field of a generated record in closed form. -/
lemma mkRecord_ecFTIR (i : ℕ) (u1 u2 u3 u4 : ℚ) :
    (mkRecord i u1 u2 u3 u4).ecFTIR = (2 + u1 * 8) * 0.9 * (1 + (u3 - 0.5) * 0.4) :=
  rfl

/-- The `fabs` field of a generated record in closed form. -/
lemma mkRecord_fabs (i : ℕ) (u1 u2 u3 u4 : ℚ) :
    (mkRecord i u1 u2 u3 u4).fabs = (2 + u1 * 8) * 5 * (1 + (u4 - 0.5) * 0.5) :=
  rfl

/-- The `mac` field of a generated record is the quotient of its `fabs` and
`ecFTIR` fields. -/
lemma mkRecord_mac (i : ℕ) (u1 u2 u3 u4 : ℚ) :
    (mkRecord i u1 u2 u3 u4).mac
      = (mkRecord i u1 u2 u3 u4).fabs / (mkRecord i u1 u2 u3 u4).ecFTIR :=
  rfl

/-- With `baseValue` draw nonnegative and `ecFTIR` noise draw in `[0, 1)`,
the generated `ecFTIR` is strictly positive. -/
lemma mkRecord_ecFTIR_pos (i : ℕ) (u1 u2 u3 u4 : ℚ)
    (h1 : 0 ≤ u1) (h3 : 0 ≤ u3) :
    0 < (mkRecord i u1 u2 u3 u4).ecFTIR := by
  rw [mkRecord_ecFTIR]
  have hb : (0 : ℚ) < 2 + u1 * 8 := by linarith
  have hn : (0 : ℚ) < 1 + (u3 - 0.5) * 0.4 := by nlinarith
  have h09 : (0 : ℚ) < 0.9 := by norm_num
  exact mul_pos (mul_pos hb h09) hn

/-- C2: for every sample size and every stream of uniform-`[0,1)` draws,
every generated record has `ecFTIR > 0`, hence its `mac = fabs / ecFTIR` is
a well-defined finite quotient (`mac * ecFTIR` recovers `fabs`): the
division never divides by zero. -/
theorem generated_ecFTIR_pos (n : ℤ) (u : ℕ → ℚ)
    (hu : ∀ k, 0 ≤ u k ∧ u k < 1) :
    ∀ r ∈ generateSampleData n u, 0 < r.ecFTIR ∧ r.mac * r.ecFTIR = r.fabs := by
  intro r hr
  rw [generateSampleData, List.mem_map] at hr
  obtain ⟨i, -, rfl⟩ := hr
  have hpos := mkRecord_ecFTIR_pos i (u (4 * i)) (u (4 * i + 1)) (u (4 * i + 2))
    (u (4 * i + 3)) (hu (4 * i)).1 (hu (4 * i + 2)).1
  refine ⟨hpos, ?_⟩
  rw [mkRecord_mac, div_mul_cancel₀ _ (ne_of_gt hpos)]

theorem generated_ecFTIR_pos_witness :
    0 < (mkRecord 0 0 0 0 0).ecFTIR ∧
    (mkRecord 0 0 0 0 0).mac * (mkRecord 0 0 0 0 0).ecFTIR = (mkRecord 0 0 0 0 0).fabs :=
  generated_ecFTIR_pos 1 (fun _ => 0) (fun _ => ⟨le_refl 0, by norm_num⟩)
    (mkRecord 0 0 0 0 0)
    (by simp [generateSampleData, Int.toNat_one, List.range_succ])

/-- C10: the generated `mac` does not depend on the `baseValue` draw `u1`
(the shared base cancels) nor on the record's season (no seasonal factor
enters `fabs` or `ecFTIR`): it equals
`(5 * (1 + (u4 - 0.5) * 0.5)) / (0.9 * (1 + (u3 - 0.5) * 0.4))` where `u3`
is the `ecFTIR` noise draw and `u4` the `fabs` noise draw; consequently it
is strictly positive and lies strictly between `3.75 / 1.08` and
`6.25 / 0.72`. -/
theorem mac_formula_and_bounds (i : ℕ) (u1 u2 u3 u4 : ℚ)
    (h1 : 0 ≤ u1) (h3 : 0 ≤ u3) (h3' : u3 < 1) (h4 : 0 ≤ u4) (h4' : u4 < 1) :
    (mkRecord i u1 u2 u3 u4).mac
      = (5 * (1 + (u4 - 0.5) * 0.5)) / (0.9 * (1 + (u3 - 0.5) * 0.4)) ∧
    0 < (mkRecord i u1 u2 u3 u4).mac ∧
    3.75 / 1.08 < (mkRecord i u1 u2 u3 u4).mac ∧
    (mkRecord i u1 u2 u3 u4).mac < 6.25 / 0.72 := by
  have hb : (0 : ℚ) < 2 + u1 * 8 := by linarith
  have hN : (0 : ℚ) < 1 + (u3 - 0.5) * 0.4 := by nlinarith
  have hN' : 1 + (u3 - 0.5) * 0.4 < (1.2 : ℚ) := by nlinarith
  have hNlo : (0.8 : ℚ) ≤ 1 + (u3 - 0.5) * 0.4 := by nlinarith
  have hM : (0.75 : ℚ) ≤ 1 + (u4 - 0.5) * 0.5 := by nlinarith
  have hM' : 1 + (u4 - 0.5) * 0.5 < (1.25 : ℚ) := by nlinarith
  have hden : (0 : ℚ) < 0.9 * (1 + (u3 - 0.5) * 0.4) := by positivity
  have heq : (mkRecord i u1 u2 u3 u4).mac
      = (5 * (1 + (u4 - 0.5) * 0.5)) / (0.9 * (1 + (u3 - 0.5) * 0.4)) := by
    rw [mkRecord_mac, mkRecord_fabs, mkRecord_ecFTIR,
      div_eq_div_iff (by positivity) (ne_of_gt hden)]
    ring
  refine ⟨heq, ?_, ?_, ?_⟩
  · rw [heq]
    positivity
  · rw [heq, div_lt_div_iff₀ (by norm_num) hden]
    nlinarith
  · rw [heq, div_lt_div_iff₀ hden (by norm_num)]
    nlinarith

theorem mac_formula_and_bounds_witness :
    (mkRecord 0 0 0 0 0).mac
      = (5 * (1 + ((0 : ℚ) - 0.5) * 0.5)) / (0.9 * (1 + ((0 : ℚ) - 0.5) * 0.4)) ∧
    0 < (mkRecord 0 0 0 0 0).mac ∧
    3.75 / 1.08 < (mkRecord 0 0 0 0 0).mac ∧
    (mkRecord 0 0 0 0 0).mac < 6.25 / 0.72 :=
  mac_formula_and_bounds 0 0 0 0 0 (le_refl 0) (le_refl 0) (by norm_num)
    (le_refl 0) (by norm_num)

/-- C7: the summary panel's seasonal distribution is computed over the whole
dataset — it does not depend on the current season filter — each entry's
percentage is `count / totalRecords * 100` with the unfiltered total as
denominator, and when the three season counts sum to the total (and the
dataset is non-empty) the three percentages sum to exactly 100. -/
theorem distribution_unfiltered (data : List DataPoint) (f g : String)
    (hlen : 0 < data.length)
    (hsum : (data.filter (fun r => r.season == "Dry Season")).length
          + (data.filter (fun r => r.season == "Belg Rainy Season")).length
          + (data.filter (fun r => r.season == "Kiremt Rainy Season")).length
          = data.length) :
    distribution data f = distribution data g ∧
    (∀ e ∈ distribution data f, e.2.2 = (e.2.1 : ℚ) / (data.length : ℚ) * 100) ∧
    ((distribution data f).map (fun e => e.2.2)).sum = 100 := by
  have hn : ((data.length : ℚ)) ≠ 0 := by
    have : (0 : ℚ) < (data.length : ℚ) := by exact_mod_cast hlen
    linarith
  refine ⟨rfl, ?_, ?_⟩
  · intro e he
    simp only [distribution, seasons, List.map_cons, List.map_nil,
      List.mem_cons, List.not_mem_nil, or_false] at he
    rcases he with rfl | rfl | rfl <;> rfl
  · simp only [distribution, seasons, List.map_cons, List.map_nil, List.sum_cons,
      List.sum_nil]
    have hq : ((data.filter (fun r => r.season == "Dry Season")).length : ℚ)
        + ((data.filter (fun r => r.season == "Belg Rainy Season")).length : ℚ)
        + ((data.filter (fun r => r.season == "Kiremt Rainy Season")).length : ℚ)
        = (data.length : ℚ) := by exact_mod_cast hsum
    field_simp
    linarith

theorem distribution_unfiltered_witness :
    distribution [sampleDry] "all" = distribution [sampleDry] "Dry Season" ∧
    (∀ e ∈ distribution [sampleDry] "all",
      e.2.2 = (e.2.1 : ℚ) / (([sampleDry] : List DataPoint).length : ℚ) * 100) ∧
    ((distribution [sampleDry] "all").map (fun e => e.2.2)).sum = 100 :=
  distribution_unfiltered [sampleDry] "all" "Dry Season" (by decide) (by decide)

/-- The length of a season's MAC-value list equals the count of records
carrying that season. -/
lemma seasonData_length (records : List DataPoint) (s : String) :
    (seasonData (macData records) s).length
      = records.countP (fun r => r.season == s) := by
  unfold seasonData macData
  rw [List.length_map, ← List.countP_eq_length_filter, List.countP_map]
  rfl

/-- Each record contributes to exactly one of the three season counts
exactly when its season occurs in the configured season list. -/
lemma countP_season_sum (records : List DataPoint) :
    records.countP (fun r => r.season == "Dry Season")
    + records.countP (fun r => r.season == "Belg Rainy Season")
    + records.countP (fun r => r.season == "Kiremt Rainy Season")
    = records.countP (fun r => seasons.contains r.season) := by
  induction records with
  | nil => rfl
  | cons r t ih =>
    simp only [List.countP_cons]
    by_cases h1 : r.season = "Dry Season" <;>
      by_cases h2 : r.season = "Belg Rainy Season" <;>
        by_cases h3 : r.season = "Kiremt Rainy Season" <;>
          simp_all [seasons] <;> omega

/-- C5: `seasonalMACs` contains, for each season with at least one matching
record, exactly the entry `(season, arithmetic mean of mac, count)`; a
season with zero matching records is omitted (no zero-filled entry); and the
per-season counts of the result sum to the number of input records whose
season occurs in the configured season list. -/
theorem seasonalMACs_spec (records : List DataPoint) :
    (∀ s ∈ seasons,
      (0 < (seasonData (macData records) s).length →
        (s, (seasonData (macData records) s).sum
              / ((seasonData (macData records) s).length : ℚ),
            (seasonData (macData records) s).length)
          ∈ seasonalMACs (macData records)) ∧
      ((seasonData (macData records) s).length = 0 →
        ∀ v, (s, v) ∉ seasonalMACs (macData records))) ∧
    ((seasonalMACs (macData records)).map (fun e => e.2.2)).sum
      = (records.filter (fun r => seasons.contains r.season)).length := by
  constructor
  · intro s hs
    constructor
    · intro hpos
      exact List.mem_filterMap.mpr ⟨s, hs, by rw [if_pos hpos]⟩
    · intro hzero v hv
      obtain ⟨s', hs', hf⟩ := List.mem_filterMap.mp hv
      by_cases h' : 0 < (seasonData (macData records) s').length
      · rw [if_pos h'] at hf
        simp only [Option.some.injEq, Prod.mk.injEq] at hf
        obtain ⟨rfl, -⟩ := hf
        omega
      · rw [if_neg h'] at hf
        exact Option.noConfusion hf
  · have key := countP_season_sum records
    have hD := seasonData_length records "Dry Season"
    have hB := seasonData_length records "Belg Rainy Season"
    have hK := seasonData_length records "Kiremt Rainy Season"
    rw [← List.countP_eq_length_filter]
    simp only [seasons] at key
    simp only [seasonalMACs, seasons, List.filterMap_cons, List.filterMap_nil]
    by_cases d1 : 0 < (seasonData (macData records) "Dry Season").length <;>
      by_cases d2 : 0 < (seasonData (macData records) "Belg Rainy Season").length <;>
        by_cases d3 : 0 < (seasonData (macData records) "Kiremt Rainy Season").length <;>
          simp only [d1, d2, d3, if_true, if_false, ite_true, ite_false,
            List.map_cons, List.map_nil, List.sum_cons, List.sum_nil] <;>
          omega

theorem seasonalMACs_spec_witness :
    ("Dry Season",
      (seasonData (macData [sampleDry]) "Dry Season").sum
        / ((seasonData (macData [sampleDry]) "Dry Season").length : ℚ),
      (seasonData (macData [sampleDry]) "Dry Season").length)
      ∈ seasonalMACs (macData [sampleDry]) :=
  (((seasonalMACs_spec [sampleDry]).1 "Dry Season" (by decide)).1) (by decide)

/-- C6: the time-series sort is a stable ascending sort: its output is a
permutation of the input whose `timestamp` values are non-decreasing, and
for every timestamp value the records carrying it appear in the same order
as in the input (stability). -/
theorem sortByTimestamp_spec (l : List DataPoint) :
    (sortByTimestamp l).Perm l ∧
    (sortByTimestamp l).Pairwise (fun a b => a.timestamp ≤ b.timestamp) ∧
    ∀ t : ℤ, (sortByTimestamp l).filter (fun r => r.timestamp == t)
      = l.filter (fun r => r.timestamp == t) := by
  have htrans : ∀ a b c : DataPoint,
      decide (a.timestamp ≤ b.timestamp) → decide (b.timestamp ≤ c.timestamp) →
      decide (a.timestamp ≤ c.timestamp) := by
    intro a b c hab hbc
    simp only [decide_eq_true_eq] at hab hbc ⊢
    omega
  have htotal : ∀ a b : DataPoint,
      decide (a.timestamp ≤ b.timestamp) || decide (b.timestamp ≤ a.timestamp) := by
    intro a b
    simp only [Bool.or_eq_true, decide_eq_true_eq]
    omega
  rw [sortByTimestamp]
  refine ⟨List.mergeSort_perm l _, ?_, ?_⟩
  · exact (List.sorted_mergeSort htrans htotal l).imp
      (fun h => by simpa using h)
  · intro t
    have hsub : List.Sublist (l.filter (fun r => r.timestamp == t)) l :=
      List.filter_sublist l
    have hpw : (l.filter (fun r => r.timestamp == t)).Pairwise
        (fun a b => decide (a.timestamp ≤ b.timestamp) = true) := by
      apply List.pairwise_of_forall_mem_list
      intro a ha b hb
      have ha' := (List.mem_filter.mp ha).2
      have hb' := (List.mem_filter.mp hb).2
      simp only [beq_iff_eq] at ha' hb'
      simp [ha', hb']
    have hsub2 : List.Sublist (l.filter (fun r => r.timestamp == t))
        (l.mergeSort (fun a b => a.timestamp ≤ b.timestamp)) :=
      List.sublist_mergeSort htrans htotal hpw hsub
    have hsub3 := hsub2.filter (fun r => r.timestamp == t)
    have hff : (l.filter (fun r => r.timestamp == t)).filter (fun r => r.timestamp == t)
        = l.filter (fun r => r.timestamp == t) :=
      List.filter_eq_self.mpr (fun a ha => (List.mem_filter.mp ha).2)
    rw [hff] at hsub3
    have hlen : ((l.mergeSort (fun a b => a.timestamp ≤ b.timestamp)).filter
          (fun r => r.timestamp == t)).length
        = (l.filter (fun r => r.timestamp == t)).length :=
      ((List.mergeSort_perm l _).filter _).length_eq
    exact (hsub3.eq_of_length hlen.symm).symm

/-- C9: the generated sequence is already chronologically ordered — each
record's timestamp is strictly greater than the previous record's, the dates
being `startDate + 3*i` days — and since season filtering is
order-preserving, sorting any season-filtered subsequence of the generated
dataset by timestamp is the identity. -/
theorem generated_chronological (n : ℤ) (u : ℕ → ℚ) (f : String) :
    (generateSampleData n u).Pairwise (fun a b => a.timestamp < b.timestamp) ∧
    sortByTimestamp (filteredData (generateSampleData n u) f)
      = filteredData (generateSampleData n u) f := by
  have hpw : (generateSampleData n u).Pairwise
      (fun a b => a.timestamp < b.timestamp) := by
    rw [generateSampleData, List.pairwise_map]
    apply (List.pairwise_lt_range n.toNat).imp
    intro a b hab
    show ((startEpochDay + a * 3 : ℕ) : ℤ) * 86400000
      < ((startEpochDay + b * 3 : ℕ) : ℤ) * 86400000
    have h2 : ((startEpochDay + a * 3 : ℕ) : ℤ) < ((startEpochDay + b * 3 : ℕ) : ℤ) := by
      exact_mod_cast Nat.add_lt_add_left (by omega) startEpochDay
    nlinarith
  refine ⟨hpw, ?_⟩
  have hpw2 := hpw.filter (fun item => (f == "all") || (item.season == f))
  rw [filteredData, sortByTimestamp]
  exact List.mergeSort_of_sorted
    (hpw2.imp (fun h => by simp only [decide_eq_true_eq]; omega))

end BCAnalysis
